import Mathlib

/-!
# Verification of the Selection & Query Orchestration Engine

Shallow embedding of the panel component (`App`) of the browser-extension
repository: selection-popup tracking and anchor computation, the async
lifecycle of the summarize / question / search answer slots, and the render
gating of the loading indicator.  Coordinates are modelled as rationals
(JavaScript number division such as `rect.width / 2` is exact on the inputs
of interest); machine strings are Lean `String`s; the outcome of an async
collaborator call is passed in explicitly as `Except String String`.
-/

/-- The `answerType` values of the source:
`useState<'define' | 'elaborate' | 'search' | null>(null)` (the `null` case is
`Option.none` at the use sites). -/
inductive AnswerType where
  | define
  | elaborate
  | search
deriving DecidableEq, Repr

/-- The `searchScope` values: `useState<'all' | 'domain' | 'page'>('page')`. -/
inductive SearchScope where
  | all
  | domain
  | page
deriving DecidableEq, Repr

/-- A screen point, as published in `selectionPopup.position`. -/
structure Point where
  x : ℚ
  y : ℚ
deriving DecidableEq, Repr

/-- The bounding rectangle returned by `range.getBoundingClientRect()`;
only the fields the handler reads (`left`, `width`, `top`, `bottom`). -/
structure Rect where
  left : ℚ
  width : ℚ
  top : ℚ
  bottom : ℚ
deriving DecidableEq, Repr

/-- The `selectionPopup` state record:
`{ position: {x,y} | null, text: string, visible: boolean }`. -/
structure SelectionPopup where
  position : Option Point
  text : String
  visible : Bool
deriving DecidableEq, Repr

/-- The whole component state of `App` (one `useState` field each). -/
structure AppState where
  loading : Bool
  question : String
  answer : String
  searchAnswer : String
  answerType : Option AnswerType
  summary : String
  url : String
  showFocusModal : Bool
  searchScope : SearchScope
  isSummarizing : Bool
  isSummarized : Bool
  darkMode : Bool
  selectionPopup : SelectionPopup
deriving DecidableEq, Repr

/-- The initial values of all `useState` calls of `App`. -/
def initialApp : AppState :=
  { loading := false
    question := ""
    answer := ""
    searchAnswer := ""
    answerType := none
    summary := ""
    url := ""
    showFocusModal := false
    searchScope := SearchScope.page
    isSummarizing := false
    isSummarized := false
    darkMode := false
    selectionPopup := { position := none, text := "", visible := false } }

/-- Model of JavaScript `String.prototype.trim` as used by the source
(`selection?.toString().trim()` and `question.trim()`): strip leading and
trailing whitespace characters. -/
def jsTrim (s : String) : String :=
  ⟨((s.data.dropWhile Char.isWhitespace).reverse.dropWhile Char.isWhitespace).reverse⟩

/-- `const popupWidth = 300` in `handleTextSelection`. -/
def popupWidth : ℚ := 300

/-- `const popupHeight = 150` in `handleTextSelection`. -/
def popupHeight : ℚ := 150

/-- `handleTextSelection` (mouseup listener).  The event data is the document
selection (`none` when `window.getSelection()` yields nothing) and the
bounding rectangle of its first range (`none` when absent), plus
`window.innerWidth`.  (`window.innerHeight` is read by the source but never
used.)  The handler trims the selection text; on a non-empty trimmed text
with a rectangle it computes the anchor with edge avoidance and publishes a
visible popup; on an empty selection it only clears `visible`; on a missing
rectangle it leaves the state unchanged. -/
def handleTextSelection (prev : SelectionPopup) (selection : Option String)
    (rect : Option Rect) (windowWidth : ℚ) : SelectionPopup :=
  let selectedText := selection.map jsTrim
  match selectedText with
  | some t =>
    if t ≠ "" then
      match rect with
      | some r =>
        let x := r.left + r.width / 2
        let y := r.top
        let x := if x - popupWidth / 2 < 0 then popupWidth / 2
          else if x + popupWidth / 2 > windowWidth then windowWidth - popupWidth / 2
          else x
        let y := if y - popupHeight < 0 then r.bottom + 10 else r.top - 10
        { position := some ⟨x, y⟩, text := t, visible := true }
      | none => prev
    else { prev with visible := false }
  | none => { prev with visible := false }

/-- `handleClickOutside` (mousedown listener).  `targetInsidePopup` is
`popup?.contains(event.target)` being truthy: the popup element exists and
contains the press target.  Otherwise the handler forces `visible := false`. -/
def handleClickOutside (prev : SelectionPopup) (targetInsidePopup : Bool) :
    SelectionPopup :=
  if !targetInsidePopup then { prev with visible := false } else prev

/-- The synchronous prefix of `summarizeCurrentPage`:
`setIsSummarizing(true); setLoading(true)`. -/
def summarizeStartApp (s : AppState) : AppState :=
  { s with isSummarizing := true, loading := true }

/-- The continuation of `summarizeCurrentPage` after `analyzeCurrentPage`
resolves: `setSummary(summary); setIsSummarized(true); setLoading(false);
setIsSummarizing(false)`. -/
def summarizeResolveApp (s : AppState) (summary : String) : AppState :=
  { s with summary := summary, isSummarized := true,
           loading := false, isSummarizing := false }

/-- The continuation of `summarizeCurrentPage` after `analyzeCurrentPage`
rejects: the error is logged and then `setLoading(false);
setIsSummarizing(false)`. -/
def summarizeFailApp (s : AppState) : AppState :=
  { s with loading := false, isSummarizing := false }

/-- `summarizeCurrentPage` run to completion, the collaborator outcome given
as `result`. -/
def summarizeCurrentPage (s : AppState) (result : Except String String) :
    AppState :=
  match result with
  | Except.ok summary => summarizeResolveApp (summarizeStartApp s) summary
  | Except.error _ => summarizeFailApp (summarizeStartApp s)

/-- The synchronous prefix of `handleQuestionSubmit` past the guard:
`setLoading(true)`. -/
def submitStartApp (s : AppState) : AppState :=
  { s with loading := true }

/-- The continuation of `handleQuestionSubmit` after `askQuestion` resolves:
`setAnswer(response); setQuestion(''); scrollToAnswer(); setLoading(false)`
(the scroll is a cosmetic side effect with no state content). -/
def submitResolveApp (s : AppState) (response : String) : AppState :=
  { s with answer := response, question := "", loading := false }

/-- The continuation of `handleQuestionSubmit` after `askQuestion` rejects:
the error is logged and then `setLoading(false)`. -/
def submitFailApp (s : AppState) : AppState :=
  { s with loading := false }

/-- `handleQuestionSubmit` run to completion.  The guard
`if (!question.trim()) return;` makes the handler a no-op on a
whitespace-only question.  The returned `Bool` records whether the
collaborator `askQuestion` was invoked. -/
def handleQuestionSubmit (s : AppState) (result : Except String String) :
    AppState × Bool :=
  if jsTrim s.question = "" then (s, false)
  else
    match result with
    | Except.ok response => (submitResolveApp (submitStartApp s) response, true)
    | Except.error _ => (submitFailApp (submitStartApp s), true)

/-- `handleSearch`, wired to the popup's `onSearch`:
`setSearchAnswer(answer); setAnswerType('search')`. -/
def handleSearch (s : AppState) (answer : String) : AppState :=
  { s with searchAnswer := answer, answerType := some AnswerType.search }

/-- `setQuestion`, wired to the question input's `onChange`. -/
def typeQuestionApp (s : AppState) (q : String) : AppState :=
  { s with question := q }

/-- The render gate of the loading animation:
`{loading && answerType && !answer && (<AnswerAnimation type={answerType}/>)}`. -/
def showLoadingIndicator (s : AppState) : Bool :=
  s.loading && s.answerType.isSome && s.answer == ""

/-- The loading indicator "for slot K" is shown when the animation renders
and its `type` prop (`answerType`) is `K`. -/
def indicatorShownFor (s : AppState) (k : AnswerType) : Bool :=
  showLoadingIndicator s && s.answerType == some k

/-- The content field of the slot an `answerType` value names: the `search`
type belongs to the `searchAnswer` slot; `define`/`elaborate` are narrower
forms of the direct-answer slot. -/
def slotContent (s : AppState) : AnswerType → String
  | AnswerType.search => s.searchAnswer
  | AnswerType.define => s.answer
  | AnswerType.elaborate => s.answer

/-- Modelled from the spec (P6): the indicator for slot K is shown iff
`loading[K] && answerType == K && content[K] == ""` — the emptiness test on
the slot's *own* content (the program has a single global `loading` flag).
This is the spec's formula, to be compared with `indicatorShownFor`. -/
def indicatorShownForSpec (s : AppState) (k : AnswerType) : Bool :=
  s.loading && (s.answerType == some k) && (slotContent s k == "")

/-!
## Event-trace semantics

The component runs on a single-threaded event loop: every handler body
between two `await` points executes atomically.  An `Event` is one such
atomic step — the synchronous prefix of a handler up to its `await`, or the
continuation that runs when the awaited collaborator call settles.
Resolution events only fire when a matching call is actually in flight, so
the machine state counts pending `askQuestion` and `analyzeCurrentPage`
calls.  There is no cancellation and no request fencing: a resolution
continuation writes its slot unconditionally.
-/

/-- One atomic event-loop step of the component. -/
inductive Event where
  /-- `onChange={setQuestion}` from the question input. -/
  | typeQuestion (q : String)
  /-- `handleQuestionSubmit` up to `await askQuestion(...)` (guard included). -/
  | submitStart
  /-- a pending `askQuestion` call resolves with `response`. -/
  | submitResolve (response : String)
  /-- a pending `askQuestion` call rejects. -/
  | submitFail
  /-- `summarizeCurrentPage` up to `await analyzeCurrentPage()`. -/
  | summarizeStart
  /-- a pending `analyzeCurrentPage` call resolves with `summary`. -/
  | summarizeResolve (summary : String)
  /-- a pending `analyzeCurrentPage` call rejects. -/
  | summarizeFail
  /-- the popup's `onSearch={handleSearch}` fires with `answer`. -/
  | search (answer : String)
  /-- the popup's `onDefine` fires; the source wires it to a no-op handler. -/
  | define
  /-- the popup's `onExplain` fires; the source wires it to a no-op handler. -/
  | explain
  /-- document `mouseup`: `handleTextSelection`. -/
  | mouseUp (selection : Option String) (rect : Option Rect) (windowWidth : ℚ)
  /-- document `mousedown`: `handleClickOutside`. -/
  | mouseDown (targetInsidePopup : Bool)
deriving DecidableEq, Repr

/-- The machine state: the component state plus the number of in-flight
collaborator calls of each kind. -/
structure MachineState where
  app : AppState
  pendingAsk : ℕ
  pendingSummarize : ℕ
deriving DecidableEq, Repr

/-- The machine's initial state: the `useState` initial values, nothing in
flight. -/
def initialMachine : MachineState :=
  { app := initialApp, pendingAsk := 0, pendingSummarize := 0 }

/-- One event applied to the machine state.  Resolution events with nothing
in flight are no-ops (they cannot occur in a real execution). -/
def step (m : MachineState) : Event → MachineState
  | Event.typeQuestion q => { m with app := typeQuestionApp m.app q }
  | Event.submitStart =>
    if jsTrim m.app.question = "" then m
    else { m with app := submitStartApp m.app, pendingAsk := m.pendingAsk + 1 }
  | Event.submitResolve r =>
    if m.pendingAsk = 0 then m
    else { m with app := submitResolveApp m.app r,
                  pendingAsk := m.pendingAsk - 1 }
  | Event.submitFail =>
    if m.pendingAsk = 0 then m
    else { m with app := submitFailApp m.app, pendingAsk := m.pendingAsk - 1 }
  | Event.summarizeStart =>
    { m with app := summarizeStartApp m.app,
             pendingSummarize := m.pendingSummarize + 1 }
  | Event.summarizeResolve sum =>
    if m.pendingSummarize = 0 then m
    else { m with app := summarizeResolveApp m.app sum,
                  pendingSummarize := m.pendingSummarize - 1 }
  | Event.summarizeFail =>
    if m.pendingSummarize = 0 then m
    else { m with app := summarizeFailApp m.app,
                  pendingSummarize := m.pendingSummarize - 1 }
  | Event.search a => { m with app := handleSearch m.app a }
  | Event.define => m
  | Event.explain => m
  | Event.mouseUp sel rect w =>
    { m with app := { m.app with
        selectionPopup := handleTextSelection m.app.selectionPopup sel rect w } }
  | Event.mouseDown inside =>
    { m with app := { m.app with
        selectionPopup := handleClickOutside m.app.selectionPopup inside } }

/-- Run a trace of events from a machine state. -/
def run (m : MachineState) (evs : List Event) : MachineState :=
  evs.foldl step m

/-- The popup-only events of claim C3: `mouseup` selection events and
`mousedown` dismissal events. -/
inductive PopupEvent where
  | mouseUp (selection : Option String) (rect : Option Rect) (windowWidth : ℚ)
  | mouseDown (targetInsidePopup : Bool)
deriving DecidableEq, Repr

/-- One popup event applied to the popup state. -/
def popupStep (p : SelectionPopup) : PopupEvent → SelectionPopup
  | PopupEvent.mouseUp sel rect w => handleTextSelection p sel rect w
  | PopupEvent.mouseDown inside => handleClickOutside p inside

/-- Run a trace of popup events from a popup state. -/
def popupRun (p : SelectionPopup) (evs : List PopupEvent) : SelectionPopup :=
  evs.foldl popupStep p

/-- Modelled from the spec's words (P2, P3, scenario C): the published anchor
is `x = rect.left + rect.width/2`, clamped to `W/2 = 150` when `x - 150 < 0`
and to `vw - 150` when `x + 150 > vw`; and `y = rect.bottom + 10` when
`rect.top < H = 150`, otherwise `y = rect.top - 10`. -/
def anchorSpec (r : Rect) (vw : ℚ) : Point :=
  let cx := r.left + r.width / 2
  let x := if cx - 150 < 0 then (150 : ℚ)
    else if cx + 150 > vw then vw - 150 else cx
  let y := if r.top < 150 then r.bottom + 10 else r.top - 10
  ⟨x, y⟩

/-- Whether an event is the popup's search action firing. -/
def Event.isSearch : Event → Bool
  | Event.search _ => true
  | _ => false

/-- The popup invariant of claim C3: a visible popup has a position and a
non-empty text. -/
def popupInv (p : SelectionPopup) : Prop :=
  p.visible = true → p.position.isSome = true ∧ p.text ≠ ""

/-- The `answerType` invariant of claim C10: only `null` or `'search'` is
ever stored. -/
def answerTypeInv (m : MachineState) : Prop :=
  m.app.answerType = none ∨ m.app.answerType = some AnswerType.search

/-! ## Theorems -/

/-- C8: a pointer-press whose target lies outside the popup's DOM region
sets `visible := false`, regardless of prior state (and touches nothing
else). -/
theorem click_outside_dismisses (prev : SelectionPopup) :
    handleClickOutside prev false = { prev with visible := false } := by
  simp [handleClickOutside]

/-- C9: a pointer-release whose trimmed document selection is empty (no
selection at all, or whitespace-only text) sets `visible := false` while
leaving the stored `position` and `text` unchanged. -/
theorem empty_selection_hides_preserving_fields (prev : SelectionPopup)
    (sel : Option String) (rect : Option Rect) (w : ℚ)
    (h : (sel.map jsTrim).getD "" = "") :
    handleTextSelection prev sel rect w = { prev with visible := false } := by
  cases sel with
  | none => simp [handleTextSelection]
  | some t =>
    have ht : jsTrim t = "" := h
    simp [handleTextSelection, ht]

/-- Closed witness for `empty_selection_hides_preserving_fields`: a
whitespace-only selection hides the popup from the initial popup state. -/
theorem empty_selection_hides_witness :
    (((some "  ").map jsTrim).getD "" = "") ∧
    handleTextSelection initialApp.selectionPopup (some "  ") none 375 =
      { initialApp.selectionPopup with visible := false } :=
  ⟨by decide,
   empty_selection_hides_preserving_fields initialApp.selectionPopup
     (some "  ") none 375 (by decide)⟩

/-- C7: a question submission with a whitespace-only (or empty) question is
a no-op: `askQuestion` is not invoked (the `Bool` is `false`) and the whole
state is returned unchanged. -/
theorem empty_question_submit_noop (s : AppState) (res : Except String String)
    (h : jsTrim s.question = "") :
    handleQuestionSubmit s res = (s, false) := by
  simp [handleQuestionSubmit, h]

/-- Closed witness for `empty_question_submit_noop` at the initial state. -/
theorem empty_question_submit_noop_witness :
    jsTrim initialApp.question = "" ∧
    handleQuestionSubmit initialApp (Except.ok "X is a thing.") =
      (initialApp, false) :=
  ⟨by decide,
   empty_question_submit_noop initialApp (Except.ok "X is a thing.") (by decide)⟩

/-- C5: with a populated slot, a submission whose collaborator call fails
leaves the slot's content unchanged and ends with `loading = false`, for
both the question slot and the summary slot. -/
theorem failed_submission_preserves_content (s : AppState) (err : String)
    (hq : jsTrim s.question ≠ "") (_ha : s.answer ≠ "") (_hm : s.summary ≠ "") :
    ((handleQuestionSubmit s (Except.error err)).1.answer = s.answer ∧
     (handleQuestionSubmit s (Except.error err)).1.loading = false) ∧
    ((summarizeCurrentPage s (Except.error err)).summary = s.summary ∧
     (summarizeCurrentPage s (Except.error err)).loading = false) := by
  refine ⟨⟨?_, ?_⟩, ?_, ?_⟩ <;>
    simp [handleQuestionSubmit, hq, submitFailApp, submitStartApp,
      summarizeCurrentPage, summarizeFailApp, summarizeStartApp]

/-- Closed witness for `failed_submission_preserves_content`: a populated
state survives a failed resubmission with its contents intact. -/
theorem failed_submission_preserves_content_witness :
    (jsTrim "why?" ≠ "" ∧ "a" ≠ "" ∧ "m" ≠ "") ∧
    (((handleQuestionSubmit
        { initialApp with question := "why?", answer := "a", summary := "m" }
        (Except.error "boom")).1.answer = "a" ∧
      (handleQuestionSubmit
        { initialApp with question := "why?", answer := "a", summary := "m" }
        (Except.error "boom")).1.loading = false) ∧
     ((summarizeCurrentPage
        { initialApp with question := "why?", answer := "a", summary := "m" }
        (Except.error "boom")).summary = "m" ∧
      (summarizeCurrentPage
        { initialApp with question := "why?", answer := "a", summary := "m" }
        (Except.error "boom")).loading = false)) :=
  ⟨⟨by decide, by decide, by decide⟩,
   failed_submission_preserves_content
     { initialApp with question := "why?", answer := "a", summary := "m" }
     "boom" (by decide) (by decide) (by decide)⟩

/-- C6 (slot independence / frame effect): completing a summarize operation
— success or failure — never alters `answer` or `searchAnswer`, and
completing a question submission never alters `summary`, `isSummarized`, or
`searchAnswer`. -/
theorem slot_independence (s : AppState) (res : Except String String) :
    ((summarizeCurrentPage s res).answer = s.answer ∧
     (summarizeCurrentPage s res).searchAnswer = s.searchAnswer) ∧
    ((handleQuestionSubmit s res).1.summary = s.summary ∧
     (handleQuestionSubmit s res).1.isSummarized = s.isSummarized ∧
     (handleQuestionSubmit s res).1.searchAnswer = s.searchAnswer) := by
  constructor
  · cases res <;>
      simp [summarizeCurrentPage, summarizeResolveApp, summarizeFailApp,
        summarizeStartApp]
  · by_cases h : jsTrim s.question = "" <;> cases res <;>
      simp [handleQuestionSubmit, h, submitResolveApp, submitFailApp,
        submitStartApp]

/-- C2 (last-write-wins): two question submissions both in flight — the
second submitted before the first resolves — and the first submission's
response (`r1`) resolving after the second's (`r2`): the final `answer` is
`r1`, the last response to complete, with no cancellation or fencing. -/
theorem last_write_wins_overlapping_submits (m : MachineState)
    (r1 r2 : String) (h : jsTrim m.app.question ≠ "") :
    (run m [Event.submitStart, Event.submitStart,
            Event.submitResolve r2, Event.submitResolve r1]).app.answer
      = r1 := by
  simp [run, step, h, submitStartApp, submitResolveApp]

/-- Closed witness for `last_write_wins_overlapping_submits`: from a state
holding the question `"q"`, the trace start-start-resolve-resolve ends with
the last-resolved text. -/
theorem last_write_wins_witness :
    jsTrim "q" ≠ "" ∧
    (run { app := { initialApp with question := "q" },
           pendingAsk := 0, pendingSummarize := 0 }
      [Event.submitStart, Event.submitStart, Event.submitResolve "second",
       Event.submitResolve "first"]).app.answer = "first" :=
  ⟨by decide,
   last_write_wins_overlapping_submits
     { app := { initialApp with question := "q" },
       pendingAsk := 0, pendingSummarize := 0 } "first" "second" (by decide)⟩

/-- C4: for a non-empty trimmed selection with a bounding rectangle, the
published popup state is visible at the spec-described anchor (center-`x`
clamped at distance 150 from either edge, `y` below the selection iff
`rect.top < 150`), carrying the trimmed text. -/
theorem anchor_matches_spec (prev : SelectionPopup) (t : String) (r : Rect)
    (vw : ℚ) (h : jsTrim t ≠ "") :
    handleTextSelection prev (some t) (some r) vw =
      { position := some (anchorSpec r vw), text := jsTrim t,
        visible := true } := by
  have hw : popupWidth / 2 = (150 : ℚ) := by norm_num [popupWidth]
  have hy : ∀ a : ℚ, (a - popupHeight < 0) ↔ (a < 150) := by
    intro a
    rw [popupHeight]
    constructor <;> intro <;> linarith
  simp only [handleTextSelection, anchorSpec, Option.map_some']
  rw [if_pos h]
  simp only [hw, hy]

/-- Closed witness for `anchor_matches_spec`, the spec's scenario C: the
rectangle with left 100, width 40, top 5, bottom 25 in a 375-wide viewport
anchors at x = 150 (clamped), y = 35 (below the selection). -/
theorem anchor_matches_spec_witness :
    jsTrim "word" ≠ "" ∧
    handleTextSelection initialApp.selectionPopup (some "word")
        (some ⟨100, 40, 5, 25⟩) 375 =
      { position := some ⟨150, 35⟩, text := "word", visible := true } := by
  refine ⟨by decide, ?_⟩
  rw [anchor_matches_spec initialApp.selectionPopup "word" ⟨100, 40, 5, 25⟩
    375 (by decide)]
  have h1 : anchorSpec ⟨100, 40, 5, 25⟩ 375 = (⟨150, 35⟩ : Point) := by
    norm_num [anchorSpec, Point.mk.injEq]
  have h2 : jsTrim "word" = "word" := by decide
  rw [h1, h2]

/-- One popup event preserves the popup invariant. -/
theorem popupStep_preserves_inv (p : SelectionPopup) (e : PopupEvent)
    (hp : popupInv p) : popupInv (popupStep p e) := by
  cases e with
  | mouseUp sel rect w =>
    cases sel with
    | none =>
      intro hv
      simp [popupStep, handleTextSelection] at hv
    | some t =>
      by_cases ht : jsTrim t = ""
      · intro hv
        simp [popupStep, handleTextSelection, ht] at hv
      · cases rect with
        | none => simpa [popupStep, handleTextSelection, ht] using hp
        | some r =>
          intro hv
          simp [popupStep, handleTextSelection, ht]
  | mouseDown inside =>
    cases inside with
    | false =>
      intro hv
      simp [popupStep, handleClickOutside] at hv
    | true => simpa [popupStep, handleClickOutside] using hp

/-- A whole popup-event trace preserves the popup invariant. -/
theorem popupRun_preserves_inv (evs : List PopupEvent) (p : SelectionPopup)
    (hp : popupInv p) : popupInv (popupRun p evs) := by
  induction evs generalizing p with
  | nil => exact hp
  | cons e evs ih => exact ih (popupStep p e) (popupStep_preserves_inv p e hp)

/-- C3: in every popup state reachable from the initial state under any
sequence of pointer-up selection events and pointer-down dismissal events,
`visible = true` implies `position` is present and `text` is non-empty. -/
theorem selection_popup_visible_invariant (evs : List PopupEvent)
    (h : (popupRun initialApp.selectionPopup evs).visible = true) :
    (popupRun initialApp.selectionPopup evs).position.isSome = true ∧
    (popupRun initialApp.selectionPopup evs).text ≠ "" :=
  popupRun_preserves_inv evs initialApp.selectionPopup
    (by intro hv; simp [initialApp] at hv) h

/-- Closed witness for `selection_popup_visible_invariant`: after one
selection of `"hello"` the popup is visible, with a position and a non-empty
text. -/
theorem selection_popup_visible_invariant_witness :
    (popupRun initialApp.selectionPopup
      [PopupEvent.mouseUp (some "hello") (some ⟨100, 40, 5, 25⟩) 375]).visible
        = true ∧
    ((popupRun initialApp.selectionPopup
      [PopupEvent.mouseUp (some "hello") (some ⟨100, 40, 5, 25⟩) 375]).position.isSome
        = true ∧
     (popupRun initialApp.selectionPopup
      [PopupEvent.mouseUp (some "hello") (some ⟨100, 40, 5, 25⟩) 375]).text
        ≠ "") :=
  ⟨by decide,
   selection_popup_visible_invariant
     [PopupEvent.mouseUp (some "hello") (some ⟨100, 40, 5, 25⟩) 375]
     (by decide)⟩

/-- One event keeps `answerType` in the set corresponding to null-or-search. -/
theorem step_preserves_answerTypeInv (m : MachineState) (e : Event)
    (hm : answerTypeInv m) : answerTypeInv (step m e) := by
  cases e <;>
    simp only [step, answerTypeInv, typeQuestionApp, submitStartApp,
      submitResolveApp, submitFailApp, summarizeStartApp, summarizeResolveApp,
      summarizeFailApp, handleSearch] at hm ⊢ <;>
    first
      | exact Or.inr rfl
      | exact Or.inr trivial
      | exact hm
      | (split <;> exact hm)

/-- A non-search event leaves a `none` `answerType` at `none`. -/
theorem step_preserves_answerType_none (m : MachineState) (e : Event)
    (he : e.isSearch = false) (hm : m.app.answerType = none) :
    (step m e).app.answerType = none := by
  cases e <;>
    simp only [Event.isSearch] at he <;>
    simp only [step, typeQuestionApp, submitStartApp, submitResolveApp,
      submitFailApp, summarizeStartApp, summarizeResolveApp,
      summarizeFailApp] <;>
    first
      | exact hm
      | (split <;> exact hm)
      | simp at he

/-- A search-free trace leaves a `none` `answerType` at `none`. -/
theorem run_no_search_keeps_none (evs : List Event) (m : MachineState)
    (hns : evs.all (fun e => ! e.isSearch) = true)
    (hm : m.app.answerType = none) :
    (run m evs).app.answerType = none := by
  induction evs generalizing m with
  | nil => exact hm
  | cons e evs ih =>
    simp only [List.all_cons, Bool.and_eq_true, Bool.not_eq_true'] at hns
    exact ih (step m e)
      (by simpa using hns.2)
      (step_preserves_answerType_none m e hns.1 hm)

/-- A whole event trace preserves the `answerType` invariant. -/
theorem run_preserves_answerTypeInv (evs : List Event) (m : MachineState)
    (hm : answerTypeInv m) : answerTypeInv (run m evs) := by
  induction evs generalizing m with
  | nil => exact hm
  | cons e evs ih => exact ih (step m e) (step_preserves_answerTypeInv m e hm)

/-- C10: in every reachable state, `answerType` is `null` or `'search'`;
moreover along any trace containing no search action, `answerType` stays
`null`, so the loading-indicator condition can never hold before a
search-selection action has occurred. -/
theorem answerType_none_or_search (evs : List Event) :
    ((run initialMachine evs).app.answerType = none ∨
     (run initialMachine evs).app.answerType = some AnswerType.search) ∧
    (evs.all (fun e => ! e.isSearch) = true →
      (run initialMachine evs).app.answerType = none ∧
      showLoadingIndicator (run initialMachine evs).app = false) := by
  constructor
  · exact run_preserves_answerTypeInv evs initialMachine (Or.inl rfl)
  · intro hns
    have hn := run_no_search_keeps_none evs initialMachine hns rfl
    exact ⟨hn, by simp [showLoadingIndicator, hn]⟩

/-- Closed witness for `answerType_none_or_search`: a search-free trace
(typing and submitting a question) ends with `answerType = none` and no
loading indicator. -/
theorem answerType_none_or_search_witness :
    (((run initialMachine
        [Event.typeQuestion "q", Event.submitStart]).app.answerType = none ∨
      (run initialMachine
        [Event.typeQuestion "q", Event.submitStart]).app.answerType
          = some AnswerType.search) ∧
     ((run initialMachine
        [Event.typeQuestion "q", Event.submitStart]).app.answerType = none ∧
      showLoadingIndicator
        (run initialMachine
          [Event.typeQuestion "q", Event.submitStart]).app = false)) :=
  ⟨(answerType_none_or_search [Event.typeQuestion "q", Event.submitStart]).1,
   (answerType_none_or_search [Event.typeQuestion "q", Event.submitStart]).2
     (by decide)⟩

/-- C1 counterexample: a reachable render state — search results `"x"`
already populated, then a question submission in flight — in which the
program shows the loading indicator for the `search` slot although the
search slot's own content is non-empty: the program's gate tests the direct
`answer` slot for every `answerType`, not the keyed slot's content. -/
theorem indicator_search_slot_counterexample :
    indicatorShownFor
      (run initialMachine
        [Event.typeQuestion "q", Event.search "x", Event.submitStart]).app
      AnswerType.search = true ∧
    indicatorShownForSpec
      (run initialMachine
        [Event.typeQuestion "q", Event.search "x", Event.submitStart]).app
      AnswerType.search = false := by
  decide

/-- C1 (amended): the loading indicator for slot K is shown iff
`loading && answerType == K && answer == ""` — the emptiness test is always
on the direct-answer slot's content, whatever K is — and while `answer` is
non-empty the indicator is shown for no K, even if `loading` is true
again. -/
theorem indicator_gating_amended (s : AppState) (k : AnswerType) :
    (indicatorShownFor s k =
      (s.loading && (s.answerType == some k) && (s.answer == ""))) ∧
    (s.answer ≠ "" → indicatorShownFor s k = false) := by
  constructor
  · cases hat : s.answerType with
    | none => simp [indicatorShownFor, showLoadingIndicator, hat]
    | some a =>
      by_cases hk : a = k
      · subst hk
        simp [indicatorShownFor, showLoadingIndicator, hat, Bool.and_comm,
          Bool.and_assoc, Bool.and_left_comm]
      · simp [indicatorShownFor, showLoadingIndicator, hat, hk, Bool.and_comm,
          Bool.and_assoc, Bool.and_left_comm]
  · intro ha
    simp [indicatorShownFor, showLoadingIndicator, ha]

/-- Closed witness for `indicator_gating_amended`: with a populated answer,
the indicator is hidden even though `loading = true` and
`answerType = 'search'`. -/
theorem indicator_gating_amended_witness :
    ({ initialApp with
        loading := true, answerType := some AnswerType.search,
        answer := "a" } : AppState).answer ≠ "" ∧
    indicatorShownFor
      { initialApp with
          loading := true, answerType := some AnswerType.search,
          answer := "a" } AnswerType.search = false :=
  ⟨by decide,
   (indicator_gating_amended
     { initialApp with
         loading := true, answerType := some AnswerType.search,
         answer := "a" } AnswerType.search).2 (by decide)⟩
